import Mathlib

/-!
Shallow embedding of WinMerge's main-frame header (Src/MainFrm.h).

The header declares the `CMainFrame` class: the `OpenFileParams` parameter
hierarchy, the open/show operation signatures, the per-kind document tracking
lists, the `FRAMETYPE` enum, the MRU helper and the inline
`CMDIClient::WindowProc` message handler.  C++ `String` is modelled as Lean
`String`, `tchar_t` as `Char`, `int` as `Int`, `std::optional` as `Option`,
`std::vector` as `List`.  Operation bodies that live in the missing
implementation file are modelled from the specification and are marked as such
in their doc comments.
-/

namespace WinMerge

/-- Base of the parameter hierarchy (MainFrm.h line 80): `OpenFileParams` has
no data members, only a virtual destructor. -/
structure OpenFileParams where
  deriving DecidableEq

/-- MainFrm.h lines 85-92: `OpenTextFileParams` adds a line, a character
position (both defaulted to -1), a file extension and a save-as path. -/
structure OpenTextFileParams extends OpenFileParams where
  m_line : Int := -1
  m_char : Int := -1
  m_fileExt : String := ""
  m_strSaveAsPath : String := ""
  deriving DecidableEq

/-- MainFrm.h lines 96-121: `OpenTableFileParams` extends the text parameters
with an optional field delimiter, an optional quote character and an optional
newlines-in-quotes policy. -/
structure OpenTableFileParams extends OpenTextFileParams where
  m_tableDelimiter : Option Char := none
  m_tableQuote : Option Char := none
  m_tableAllowNewlinesInQuotes : Option Bool := none
  deriving DecidableEq

/-- MainFrm.h lines 125-154: `OpenBinaryFileParams` adds a start address
(default -1, meaning unspecified) and a save-as path. -/
structure OpenBinaryFileParams extends OpenFileParams where
  m_address : Int := -1
  m_strSaveAsPath : String := ""
  deriving DecidableEq

/-- MainFrm.h lines 158-199: `OpenImageFileParams` adds x and y coordinates
(default -1) and a save-as path. -/
structure OpenImageFileParams extends OpenFileParams where
  m_x : Int := -1
  m_y : Int := -1
  m_strSaveAsPath : String := ""
  deriving DecidableEq

/-- MainFrm.h lines 208-212: `OpenWebPageParams` adds no fields. -/
structure OpenWebPageParams extends OpenFileParams where
  deriving DecidableEq

/-- MainFrm.h lines 230-234: `OpenAutoFileParams` multiply inherits from
`OpenTableFileParams`, `OpenBinaryFileParams` and `OpenImageFileParams`.
The C++ inheritance is non-virtual, so each base-class subobject is a
separate member; in particular every `m_strSaveAsPath` inherited through a
base survives as a distinct field.  The subobjects are modelled as explicit
fields to keep the C++ layout (Lean's `extends` would merge equal-named
fields, which C++ does not). -/
structure OpenAutoFileParams where
  toOpenTableFileParams : OpenTableFileParams
  toOpenBinaryFileParams : OpenBinaryFileParams
  toOpenImageFileParams : OpenImageFileParams
  deriving DecidableEq

/-- MainFrm.h lines 244-255: `OpenFolderParams` adds a hidden-item list. -/
structure OpenFolderParams extends OpenFileParams where
  m_hiddenItems : List String := []
  deriving DecidableEq

/-- Access the save-as path inherited through `OpenTableFileParams`
(base-class qualification `OpenTextFileParams::m_strSaveAsPath`). -/
def OpenAutoFileParams.tableSaveAsPath (p : OpenAutoFileParams) : String :=
  p.toOpenTableFileParams.m_strSaveAsPath

/-- Access the save-as path inherited through `OpenBinaryFileParams`
(base-class qualification `OpenBinaryFileParams::m_strSaveAsPath`). -/
def OpenAutoFileParams.binarySaveAsPath (p : OpenAutoFileParams) : String :=
  p.toOpenBinaryFileParams.m_strSaveAsPath

/-- Access the save-as path inherited through `OpenImageFileParams`
(base-class qualification `OpenImageFileParams::m_strSaveAsPath`). -/
def OpenAutoFileParams.imageSaveAsPath (p : OpenAutoFileParams) : String :=
  p.toOpenImageFileParams.m_strSaveAsPath

/-- Set the save-as path of the `OpenTableFileParams` subobject only. -/
def OpenAutoFileParams.setTableSaveAsPath (p : OpenAutoFileParams) (s : String) :
    OpenAutoFileParams :=
  ⟨⟨⟨p.toOpenTableFileParams.toOpenFileParams, p.toOpenTableFileParams.m_line,
      p.toOpenTableFileParams.m_char, p.toOpenTableFileParams.m_fileExt, s⟩,
    p.toOpenTableFileParams.m_tableDelimiter, p.toOpenTableFileParams.m_tableQuote,
    p.toOpenTableFileParams.m_tableAllowNewlinesInQuotes⟩,
   p.toOpenBinaryFileParams, p.toOpenImageFileParams⟩

/-- Set the save-as path of the `OpenBinaryFileParams` subobject only. -/
def OpenAutoFileParams.setBinarySaveAsPath (p : OpenAutoFileParams) (s : String) :
    OpenAutoFileParams :=
  ⟨p.toOpenTableFileParams,
   ⟨p.toOpenBinaryFileParams.toOpenFileParams, p.toOpenBinaryFileParams.m_address, s⟩,
   p.toOpenImageFileParams⟩

/-- Set the save-as path of the `OpenImageFileParams` subobject only. -/
def OpenAutoFileParams.setImageSaveAsPath (p : OpenAutoFileParams) (s : String) :
    OpenAutoFileParams :=
  ⟨p.toOpenTableFileParams, p.toOpenBinaryFileParams,
   ⟨p.toOpenImageFileParams.toOpenFileParams, p.toOpenImageFileParams.m_x,
    p.toOpenImageFileParams.m_y, s⟩⟩

/-- A concrete `OpenAutoFileParams` whose three inherited save-as paths are
set to three given strings, everything else defaulted. -/
def mkAutoFileParams (a b c : String) : OpenAutoFileParams :=
  ⟨⟨⟨⟨⟩, -1, -1, "", a⟩, none, none, none⟩, ⟨⟨⟩, -1, b⟩, ⟨⟨⟩, -1, -1, c⟩⟩

/-- C++ return types appearing in the CMainFrame declarations. -/
inductive CppType
  | boolT
  | voidT
  | hmenuT
  | stringT
  | lresultT
  | frametypeT
  deriving DecidableEq

/-- The static type of a `pOpenParams`-style argument, one tag per
`OpenFileParams` subtype. -/
inductive ParamsKind
  | fileParams
  | textFileParams
  | tableFileParams
  | binaryFileParams
  | imageFileParams
  | webPageParams
  | autoFileParams
  | folderParams
  deriving DecidableEq

/-- The CMainFrame member operations modelled here (MainFrm.h lines 295-703
and 1281-1317).  `showTextMergeDocFromText` is the second overload of
`ShowTextMergeDoc` (the one taking text buffers, lines 543-548). -/
inductive MainFrmOp
  | doFileOrFolderOpen
  | doFileOpen
  | doFileNew
  | doOpenConflict
  | doOpenClipboard
  | doSelfCompare
  | showAutoMergeDoc
  | showMergeDoc
  | showTextOrTableMergeDoc
  | showTextMergeDoc
  | showTextMergeDocFromText
  | showTableMergeDoc
  | showHexMergeDoc
  | showImgMergeDoc
  | showWebDiffDoc
  | newDirViewMenu
  | newMergeViewMenu
  | newDefaultMenu
  | getPrediffersSubmenu
  | updatePrediffersMenu
  | updateTitleBarAndTabBar
  | askCloseConfirmation
  | getFrameType
  | getPluginPipelineByMenuId
  | compareFilesIfFilesAreLarge
  | onFileOpen
  | addToMruOp
  deriving DecidableEq

/-- Return type of each modelled operation as declared in MainFrm.h. -/
def retType : MainFrmOp → CppType
  | .doFileOrFolderOpen => .boolT
  | .doFileOpen => .boolT
  | .doFileNew => .boolT
  | .doOpenConflict => .boolT
  | .doOpenClipboard => .boolT
  | .doSelfCompare => .boolT
  | .showAutoMergeDoc => .boolT
  | .showMergeDoc => .boolT
  | .showTextOrTableMergeDoc => .boolT
  | .showTextMergeDoc => .boolT
  | .showTextMergeDocFromText => .boolT
  | .showTableMergeDoc => .boolT
  | .showHexMergeDoc => .boolT
  | .showImgMergeDoc => .boolT
  | .showWebDiffDoc => .boolT
  | .newDirViewMenu => .hmenuT
  | .newMergeViewMenu => .hmenuT
  | .newDefaultMenu => .hmenuT
  | .getPrediffersSubmenu => .hmenuT
  | .updatePrediffersMenu => .voidT
  | .updateTitleBarAndTabBar => .voidT
  | .askCloseConfirmation => .boolT
  | .getFrameType => .frametypeT
  | .getPluginPipelineByMenuId => .stringT
  | .compareFilesIfFilesAreLarge => .boolT
  | .onFileOpen => .voidT
  | .addToMruOp => .voidT

/-- The open/show operations of the session-opening pipeline declared by
CMainFrame (MainFrm.h lines 359-632). -/
def isOpenShowOp : MainFrmOp → Bool
  | .doFileOrFolderOpen => true
  | .doFileOpen => true
  | .doFileNew => true
  | .doOpenConflict => true
  | .doOpenClipboard => true
  | .doSelfCompare => true
  | .showAutoMergeDoc => true
  | .showMergeDoc => true
  | .showTextOrTableMergeDoc => true
  | .showTextMergeDoc => true
  | .showTextMergeDocFromText => true
  | .showTableMergeDoc => true
  | .showHexMergeDoc => true
  | .showImgMergeDoc => true
  | .showWebDiffDoc => true
  | _ => false

/-- Static type of the `pOpenParams` argument of each operation as declared
in MainFrm.h (`none` when the operation declares no such argument). -/
def openParamsArg : MainFrmOp → Option ParamsKind
  | .doFileOrFolderOpen => some .fileParams
  | .doFileOpen => some .fileParams
  | .doFileNew => some .fileParams
  | .doOpenConflict => none
  | .doOpenClipboard => some .fileParams
  | .doSelfCompare => some .fileParams
  | .showAutoMergeDoc => some .fileParams
  | .showMergeDoc => some .fileParams
  | .showTextOrTableMergeDoc => some .textFileParams
  | .showTextMergeDoc => some .textFileParams
  | .showTextMergeDocFromText => some .textFileParams
  | .showTableMergeDoc => some .textFileParams
  | .showHexMergeDoc => some .binaryFileParams
  | .showImgMergeDoc => some .imageFileParams
  | .showWebDiffDoc => some .webPageParams
  | _ => none

/-- Whether the operation declares a `PathContext` argument and, if so,
whether that argument is a pointer to const (`const PathContext *`), as
declared in MainFrm.h lines 359 and 380-381. -/
def pathContextArgConstPtr : MainFrmOp → Option Bool
  | .doFileOrFolderOpen => some true
  | .doFileOpen => some true
  | _ => none

/-- MainFrm.h lines 70-78: the `FRAMETYPE` enum, exactly six values. -/
inductive FRAMETYPE
  | FRAME_FOLDER
  | FRAME_FILE
  | FRAME_HEXFILE
  | FRAME_IMGFILE
  | FRAME_WEBPAGE
  | FRAME_OTHER
  deriving DecidableEq

/-- The per-kind document tracking lists held by the frame (MainFrm.h lines
47-50 and 1284-1299): `OpenDocList`, `MergeDocList` (text and table compares
both use `CMergeDoc`), `DirDocList`, `HexMergeDocList`, the image-merge frame
list and the web-page frame list. -/
inductive DocKind
  | openDoc
  | mergeDoc
  | dirDoc
  | hexMergeDoc
  | imgMergeFrame
  | webPageFrame
  deriving DecidableEq

/-- Modelled from the spec: the kinds of MDI child frames that can host a
comparison session.  The body of `CMainFrame::GetFrameType` is in the missing
implementation file; the header gives the frame/document taxonomy (the typed
lists on lines 47-50 and 1284-1299, where text and table compares share
`CMergeDoc`, and `COpenDoc` hosts the open/new dialog, not a comparison). -/
inductive FrameClass
  | openFrame
  | mergeFrame (isTable : Bool)
  | dirFrame
  | hexMergeFrame
  | imgMergeFrame
  | webPageFrame
  | unknownFrame
  deriving DecidableEq

/-- Modelled from the spec: `CMainFrame::GetFrameType` (declared MainFrm.h
line 670, body in the missing implementation file) classifies a frame window
by its runtime class into a `FRAMETYPE`; merge-edit frames (text and table
alike) are file-compare frames, and frames of no recognized kind yield
`FRAME_OTHER`. -/
def GetFrameType : FrameClass → FRAMETYPE
  | .dirFrame => .FRAME_FOLDER
  | .mergeFrame _ => .FRAME_FILE
  | .hexMergeFrame => .FRAME_HEXFILE
  | .imgMergeFrame => .FRAME_IMGFILE
  | .webPageFrame => .FRAME_WEBPAGE
  | .openFrame => .FRAME_OTHER
  | .unknownFrame => .FRAME_OTHER

/-- The frame's per-kind document tracking state: for each kind, the list of
document identifiers currently registered in that kind's list. -/
structure FrameState where
  docs : DocKind → List Nat

/-- A document identifier `id` is tracked in the kind-`k` list. -/
def FrameState.tracked (s : FrameState) (k : DocKind) (id : Nat) : Prop :=
  id ∈ s.docs k

/-- Register a freshly created document in the list of its kind. -/
def FrameState.register (s : FrameState) (k : DocKind) (id : Nat) : FrameState :=
  ⟨fun k2 => if k2 = k then id :: s.docs k2 else s.docs k2⟩

/-- Remove a document from every list (session closed). -/
def FrameState.unregister (s : FrameState) (id : Nat) : FrameState :=
  ⟨fun k => (s.docs k).filter (fun d => d ≠ id)⟩

/-- Modelled from the spec: the lifecycle events the open/show pipeline and
window bookkeeping generate for the tracking lists.  `openSession k id ok`
is a run of one open pathway that (when `ok` holds) instantiates one
document/view of kind `k`; `closeSession id` closes that session; `uiEvent`
is any other handler, which does not touch the lists. -/
inductive SessionEvent
  | openSession (k : DocKind) (id : Nat) (ok : Bool)
  | closeSession (id : Nat)
  | uiEvent
  deriving DecidableEq

/-- Modelled from the spec: effect of one lifecycle event on the tracking
lists (the bodies of the open/show operations are in the missing
implementation file).  A successful open registers the new document in
exactly the list of its kind; a failed open registers nothing. -/
def sessionStep (s : FrameState) (e : SessionEvent) : FrameState :=
  match e with
  | .openSession k id ok => if ok then s.register k id else s
  | .closeSession id => s.unregister id
  | .uiEvent => s

/-- A freshly created document object has an identifier not yet tracked
anywhere; closing and UI events have no precondition. -/
def eventOk (s : FrameState) : SessionEvent → Prop
  | .openSession _ id _ => ∀ k, ¬ s.tracked k id
  | .closeSession _ => True
  | .uiEvent => True

/-- Each document is tracked in at most one per-kind list. -/
def uniqueTracking (s : FrameState) : Prop :=
  ∀ id k k2, s.tracked k id → s.tracked k2 id → k = k2

/-- Modelled from the spec: outcome of an open/show operation.  The possible
failure causes named by the spec (inaccessible path, unsupported type, user
cancellation) are resolved inside the called collaborator. -/
inductive OpenOutcome
  | success
  | failInaccessiblePath
  | failUnsupportedType
  | failUserCancelled
  deriving DecidableEq

/-- Modelled from the spec: what an open/show operation reports to its
caller — a bare boolean, true exactly on success; the failure cause is not
part of the returned value. -/
def reportOutcome : OpenOutcome → Bool
  | .success => true
  | _ => false

/-- The document/view kinds the session opener decides between, as the spec
lists them: folder, text, table, hex, image, web. -/
inductive CompareKind
  | folderK
  | textK
  | tableK
  | hexK
  | imgK
  | webK
  deriving DecidableEq

/-- The Show*Doc subfamily of the CMainFrame operations, as declared in
MainFrm.h lines 457-632 (every member operation whose name starts with
`Show`); the header declares no folder Show*Doc. -/
def isShowDocOp : MainFrmOp → Bool
  | .showAutoMergeDoc => true
  | .showMergeDoc => true
  | .showTextOrTableMergeDoc => true
  | .showTextMergeDoc => true
  | .showTextMergeDocFromText => true
  | .showTableMergeDoc => true
  | .showHexMergeDoc => true
  | .showImgMergeDoc => true
  | .showWebDiffDoc => true
  | _ => false

/-- Modelled from the spec: the session opener hands each decided kind to
one operation (the decision logic lives in the missing implementation
file).  Each of the five file kinds goes to the matching Show*Doc
operation; the folder kind goes to the folder-compare pathway inside
`DoFileOrFolderOpen`, since the header declares no folder Show*Doc. -/
def sessionDelegate : CompareKind → MainFrmOp
  | .folderK => .doFileOrFolderOpen
  | .textK => .showTextMergeDoc
  | .tableK => .showTableMergeDoc
  | .hexK => .showHexMergeDoc
  | .imgK => .showImgMergeDoc
  | .webK => .showWebDiffDoc

/-- The parameter typing the claim expects for each comparison kind (claim
side of the refinement, from the spec's words: text and table take
`OpenTextFileParams`, hex takes `OpenBinaryFileParams`, image takes
`OpenImageFileParams`, web takes `OpenWebPageParams`, folder options are
`OpenFolderParams`). -/
def claimParamsKind : CompareKind → ParamsKind
  | .folderK => .folderParams
  | .textK => .textFileParams
  | .tableK => .textFileParams
  | .hexK => .binaryFileParams
  | .imgK => .imageFileParams
  | .webK => .webPageParams

/-- Modelled from the spec: the document/view kind each Show*Doc operation
instantiates (text and table compares both produce a `CMergeDoc`, tracked in
`MergeDocList`). -/
def instantiatedDocKind : MainFrmOp → Option DocKind
  | .showAutoMergeDoc => some .mergeDoc
  | .showMergeDoc => some .mergeDoc
  | .showTextOrTableMergeDoc => some .mergeDoc
  | .showTextMergeDoc => some .mergeDoc
  | .showTextMergeDocFromText => some .mergeDoc
  | .showTableMergeDoc => some .mergeDoc
  | .showHexMergeDoc => some .hexMergeDoc
  | .showImgMergeDoc => some .imgMergeFrame
  | .showWebDiffDoc => some .webPageFrame
  | _ => none

/-- The document kind the claim expects each comparison kind to
instantiate (folder compares produce a dir document, tracked in
`DirDocList`). -/
def claimDocKind : CompareKind → DocKind
  | .folderK => .dirDoc
  | .textK => .mergeDoc
  | .tableK => .mergeDoc
  | .hexK => .hexMergeDoc
  | .imgK => .imgMergeFrame
  | .webK => .webPageFrame

/-- Modelled from the spec: a path context is an ordered set of 2-3 input
locations for a comparison (the `PathContext` class itself lives outside this
header). -/
structure PathContext where
  paths : List String
  deriving DecidableEq

/-- Well-formedness from the spec: 2-3 ordered input locations. -/
def PathContext.wellFormed (pc : PathContext) : Prop :=
  2 ≤ pc.paths.length ∧ pc.paths.length ≤ 3

/-- The world an open operation acts on: a store of caller-owned path
contexts (addressed by pointer) and the frame's tracking state. -/
structure OpenWorld where
  pathContexts : Nat → PathContext
  frame : FrameState

/-- Modelled from the spec: `CMainFrame::DoFileOrFolderOpen` (declared
MainFrm.h line 359, body in the missing implementation file).  It receives
the path context through `const PathContext *`, runs one open pathway
(registering a new document of kind `k` on success) and returns a boolean;
the store of path contexts is never written. -/
def doFileOrFolderOpen (pFiles : Nat) (k : DocKind) (newId : Nat)
    (ok : Bool) (w : OpenWorld) : Bool × OpenWorld :=
  (ok, ⟨w.pathContexts, sessionStep w.frame (.openSession k newId ok)⟩)

/-- Modelled from the spec: `CMainFrame::DoFileOpen` (declared MainFrm.h
line 380, body in the missing implementation file).  Same contract as
`doFileOrFolderOpen` restricted to file compares. -/
def doFileOpen (pFiles : Nat) (k : DocKind) (newId : Nat)
    (ok : Bool) (w : OpenWorld) : Bool × OpenWorld :=
  (ok, ⟨w.pathContexts, sessionStep w.frame (.openSession k newId ok)⟩)

/-- Modelled from the spec: the MRU update applied by
`CMainFrame::addToMru` (declared MainFrm.h line 1281 with default
`nMaxItems = 20`, body in the missing implementation file): move-to-front of
the item, truncated to at most `nMaxItems` entries. -/
def mruUpdate (szItem : String) (nMaxItems : Nat) (old : List String) :
    List String :=
  List.take nMaxItems (szItem :: old.filter (fun s => s ≠ szItem))

/-- Modelled from the spec: `addToMru` rewrites the registry list stored
under `szRegSubKey`, leaving every other subkey untouched.  The registry is
a map from subkey to stored list. -/
def addToMru (szItem szRegSubKey : String) (reg : String → List String)
    (nMaxItems : Nat := 20) : String → List String :=
  fun key =>
    if key = szRegSubKey then mruUpdate szItem nMaxItems (reg szRegSubKey)
    else reg key

/-- Observable actions of `CMDIClient::WindowProc` (MainFrm.h lines
865-899). -/
inductive MDIAction
  | setTimerAct (id : Nat)
  | setRedrawAct (b : Bool)
  | killTimerAct (id : Nat)
  | redrawWindowAllChildren
  | setMenuBarHidden
  | attachMenuAct
  deriving DecidableEq

/-- State of the MDI client window relevant to the redraw logic: whether
redraw is enabled and whether the redraw timer is pending. -/
structure MDIClientState where
  redrawEnabled : Bool
  timerActive : Bool
  deriving DecidableEq

/-- Environment a message delivery observes: the maximized flag and active
window reported by `WM_MDIGETACTIVE`, and whether `SetTimer` succeeds. -/
structure MDIEnv where
  bMaximized : Bool
  hwndActiveIsNull : Bool
  setTimerSucceeds : Bool
  deriving DecidableEq

/-- The messages `CMDIClient::WindowProc` switches on. -/
inductive MDIMsg
  | wmMdiCreate
  | wmMdiActivate
  | wmMdiSetMenu
  | wmTimer (wParam : Nat)
  | otherMsg
  deriving DecidableEq

/-- MainFrm.h line 855: the redraw timer identifier. -/
def m_nRedrawTimer : Nat := 1612

/-- MainFrm.h lines 865-899: `CMDIClient::WindowProc`, transcribed as a step
function from state and message (with its environment) to new state plus the
list of performed actions.  On `WM_MDICREATE`/`WM_MDIACTIVATE`, when the
active child is maximized (or a create arrives with no active child),
`SetTimer(m_nRedrawTimer, ...)` is attempted and, only if it succeeds,
`SetRedraw(FALSE)` runs; on `WM_TIMER` for that id the timer is killed,
`SetRedraw(TRUE)` runs and the window is redrawn with all children. -/
def CMDIClient.windowProc (s : MDIClientState) (msg : MDIMsg) (env : MDIEnv) :
    MDIClientState × List MDIAction :=
  match msg with
  | .wmMdiCreate | .wmMdiActivate =>
    if env.bMaximized ∨ (msg = .wmMdiCreate ∧ env.hwndActiveIsNull) then
      if env.setTimerSucceeds then
        (⟨false, true⟩, [.setTimerAct m_nRedrawTimer, .setRedrawAct false])
      else
        (s, [.setTimerAct m_nRedrawTimer])
    else (s, [])
  | .wmMdiSetMenu => (s, [.setMenuBarHidden, .attachMenuAct])
  | .wmTimer w =>
    if w = m_nRedrawTimer then
      (⟨true, false⟩,
       [.killTimerAct m_nRedrawTimer, .setRedrawAct true,
        .redrawWindowAllChildren])
    else (s, [])
  | .otherMsg => (s, [])

/-- A concrete open world used to instantiate theorems: one two-path context
in every slot, no documents tracked. -/
def w0 : OpenWorld :=
  ⟨fun _ => ⟨["L", "R"]⟩, ⟨fun _ => []⟩⟩

/-- The empty tracking state: no document registered in any list. -/
def emptyFrameState : FrameState := ⟨fun _ => []⟩

end WinMerge

namespace WinMerge

theorem tracked_register (s : FrameState) (k : DocKind) (id : Nat)
    (k2 : DocKind) (id2 : Nat) :
    (s.register k id).tracked k2 id2 ↔ (k2 = k ∧ id2 = id) ∨ s.tracked k2 id2 := by
  unfold FrameState.register FrameState.tracked
  by_cases h : k2 = k <;> simp [h]

theorem tracked_unregister (s : FrameState) (id : Nat) (k : DocKind)
    (id2 : Nat) :
    (s.unregister id).tracked k id2 ↔ s.tracked k id2 ∧ id2 ≠ id := by
  unfold FrameState.unregister FrameState.tracked
  simp [List.mem_filter]

/-- Claim C5: the `OpenFileParams` family is a tagged hierarchy in which each
variant carries exactly its kind's options: `OpenTableFileParams` adds to the
text parameters an optional field delimiter, an optional quote character and
an optional newlines-in-quotes policy; `OpenBinaryFileParams` adds a start
offset defaulting to -1 and a save-as path; `OpenImageFileParams` adds x and
y coordinates defaulting to -1 and a save-as path; `OpenWebPageParams` adds
no fields; `OpenFolderParams` adds a hidden-item list. -/
theorem openFileParams_family_fields :
    (∀ p : OpenTableFileParams,
      p = ⟨p.toOpenTextFileParams, p.m_tableDelimiter, p.m_tableQuote,
           p.m_tableAllowNewlinesInQuotes⟩) ∧
    (∀ p : OpenBinaryFileParams,
      p = ⟨p.toOpenFileParams, p.m_address, p.m_strSaveAsPath⟩) ∧
    ({} : OpenBinaryFileParams).m_address = -1 ∧
    (∀ p : OpenImageFileParams,
      p = ⟨p.toOpenFileParams, p.m_x, p.m_y, p.m_strSaveAsPath⟩) ∧
    ({} : OpenImageFileParams).m_x = -1 ∧
    ({} : OpenImageFileParams).m_y = -1 ∧
    (∀ p q : OpenWebPageParams, p = q) ∧
    (∀ p : OpenFolderParams, p = ⟨p.toOpenFileParams, p.m_hiddenItems⟩) := by
  refine ⟨fun p => rfl, fun p => rfl, rfl, fun p => rfl, rfl, rfl, ?_,
    fun p => rfl⟩
  rintro ⟨⟨⟩⟩ ⟨⟨⟩⟩
  rfl

/-- Claim C6 (counterexample): the claim, read as saying the two
`m_strSaveAsPath` members of an `OpenAutoFileParams` value are the ones
inherited through `OpenBinaryFileParams` and `OpenImageFileParams`, fails:
at a concrete value the copy inherited through `OpenTableFileParams` (from
`OpenTextFileParams`) differs from both, so it is a third distinct member. -/
theorem openAutoFileParams_saveAsPath_counterexample :
    ¬ ((mkAutoFileParams "a" "b" "c").tableSaveAsPath =
         (mkAutoFileParams "a" "b" "c").binarySaveAsPath ∨
       (mkAutoFileParams "a" "b" "c").tableSaveAsPath =
         (mkAutoFileParams "a" "b" "c").imageSaveAsPath) := by
  decide

/-- Claim C6 (amended): `OpenAutoFileParams` multiply inherits from
`OpenTableFileParams`, `OpenBinaryFileParams` and `OpenImageFileParams`, all
deriving from the common base `OpenFileParams`; consequently a value contains
three distinct `m_strSaveAsPath` members — inherited through
`OpenTableFileParams` (via `OpenTextFileParams`), `OpenBinaryFileParams` and
`OpenImageFileParams` — which are independently settable and are accessed
with explicit base-class qualification. -/
theorem openAutoFileParams_three_saveAsPath :
    (∀ a b c : String,
      (mkAutoFileParams a b c).tableSaveAsPath = a ∧
      (mkAutoFileParams a b c).binarySaveAsPath = b ∧
      (mkAutoFileParams a b c).imageSaveAsPath = c) ∧
    (∀ (p : OpenAutoFileParams) (s : String),
      (p.setTableSaveAsPath s).tableSaveAsPath = s ∧
      (p.setTableSaveAsPath s).binarySaveAsPath = p.binarySaveAsPath ∧
      (p.setTableSaveAsPath s).imageSaveAsPath = p.imageSaveAsPath) ∧
    (∀ (p : OpenAutoFileParams) (s : String),
      (p.setBinarySaveAsPath s).binarySaveAsPath = s ∧
      (p.setBinarySaveAsPath s).tableSaveAsPath = p.tableSaveAsPath ∧
      (p.setBinarySaveAsPath s).imageSaveAsPath = p.imageSaveAsPath) ∧
    (∀ (p : OpenAutoFileParams) (s : String),
      (p.setImageSaveAsPath s).imageSaveAsPath = s ∧
      (p.setImageSaveAsPath s).tableSaveAsPath = p.tableSaveAsPath ∧
      (p.setImageSaveAsPath s).binarySaveAsPath = p.binarySaveAsPath) :=
  ⟨fun _ _ _ => ⟨rfl, rfl, rfl⟩, fun _ _ => ⟨rfl, rfl, rfl⟩,
   fun _ _ => ⟨rfl, rfl, rfl⟩, fun _ _ => ⟨rfl, rfl, rfl⟩⟩

/-- Claim C8: `GetFrameType` is a total function whose codomain `FRAMETYPE`
has exactly the six values `FRAME_FOLDER`, `FRAME_FILE`, `FRAME_HEXFILE`,
`FRAME_IMGFILE`, `FRAME_WEBPAGE`, `FRAME_OTHER`; a table compare session is
classified the same as a text file compare (`FRAME_FILE`), and a frame of
unrecognized kind yields `FRAME_OTHER`. -/
theorem getFrameType_six_values :
    (∀ t : FRAMETYPE,
      t = .FRAME_FOLDER ∨ t = .FRAME_FILE ∨ t = .FRAME_HEXFILE ∨
      t = .FRAME_IMGFILE ∨ t = .FRAME_WEBPAGE ∨ t = .FRAME_OTHER) ∧
    GetFrameType (.mergeFrame true) = GetFrameType (.mergeFrame false) ∧
    GetFrameType (.mergeFrame true) = .FRAME_FILE ∧
    GetFrameType .unknownFrame = .FRAME_OTHER := by
  refine ⟨fun t => ?_, rfl, rfl, rfl⟩
  cases t <;> simp

/-- Claim C2: every open/show operation declared by CMainFrame reports its
outcome solely as a boolean success flag: its declared return type is `bool`,
the reported value is true exactly on success, and the distinct failure
causes (inaccessible path, unsupported type, user cancellation) all collapse
to the same `false` — no structured error kind crosses this boundary. -/
theorem openShowOps_return_bool :
    (∀ op : MainFrmOp, isOpenShowOp op = true → retType op = .boolT) ∧
    (∀ o : OpenOutcome, reportOutcome o = true ↔ o = .success) ∧
    reportOutcome .failInaccessiblePath = reportOutcome .failUnsupportedType ∧
    reportOutcome .failUnsupportedType = reportOutcome .failUserCancelled ∧
    reportOutcome .failInaccessiblePath = false := by
  refine ⟨fun op h => ?_, fun o => ?_, rfl, rfl, rfl⟩
  · cases op <;> first | rfl | exact absurd h (by decide)
  · cases o <;> simp [reportOutcome]

/-- Claim C2 witness: `DoFileOpen` is an open/show operation and its declared
return type is `bool`. -/
theorem openShowOps_return_bool_witness :
    isOpenShowOp .doFileOpen = true ∧ retType .doFileOpen = .boolT :=
  ⟨rfl, openShowOps_return_bool.1 .doFileOpen rfl⟩

/-- Claim C3 (counterexample): the claim, as stated, says the session opener
delegates each decided kind — folder included — to the matching Show*Doc
operation; but among the declared CMainFrame operations no Show*Doc
instantiates the folder document kind, and none takes the folder parameter
subtype, so no matching Show*Doc operation exists for the folder kind. -/
theorem showDoc_folder_delegation_counterexample :
    ¬ ∃ op : MainFrmOp, isShowDocOp op = true ∧
      (instantiatedDocKind op = some DocKind.dirDoc ∨
       openParamsArg op = some ParamsKind.folderParams) := by
  rintro ⟨op, h1, h2⟩
  cases op <;> simp_all [isShowDocOp, instantiatedDocKind, openParamsArg]

/-- Claim C3 (amended): each file comparison kind has a Show*Doc operation
whose open-parameter argument is typed with exactly that kind's
`OpenFileParams` subtype (text and table take `OpenTextFileParams`, hex takes
`OpenBinaryFileParams`, image takes `OpenImageFileParams`, web takes
`OpenWebPageParams`); the session opener decides between the document/view
kinds folder, text, table, hex, image, web and delegates each of the five
file kinds to the matching Show*Doc operation, which instantiates the
matching document/view kind, while the folder kind — for which no Show*Doc
operation is declared — is handled by the folder-compare pathway of
`DoFileOrFolderOpen`, instantiating the dir document. -/
theorem showDoc_param_typing_and_dispatch :
    openParamsArg .showTextOrTableMergeDoc = some .textFileParams ∧
    openParamsArg .showTextMergeDoc = some .textFileParams ∧
    openParamsArg .showTextMergeDocFromText = some .textFileParams ∧
    openParamsArg .showTableMergeDoc = some .textFileParams ∧
    openParamsArg .showHexMergeDoc = some .binaryFileParams ∧
    openParamsArg .showImgMergeDoc = some .imageFileParams ∧
    openParamsArg .showWebDiffDoc = some .webPageParams ∧
    (∀ k : CompareKind, k ≠ .folderK →
      isShowDocOp (sessionDelegate k) = true ∧
      openParamsArg (sessionDelegate k) = some (claimParamsKind k) ∧
      instantiatedDocKind (sessionDelegate k) = some (claimDocKind k) ∧
      isOpenShowOp (sessionDelegate k) = true) ∧
    (sessionDelegate .folderK = .doFileOrFolderOpen ∧
     claimDocKind .folderK = .dirDoc ∧
     isShowDocOp .doFileOrFolderOpen = false ∧
     isOpenShowOp .doFileOrFolderOpen = true) ∧
    (∀ op : MainFrmOp, isShowDocOp op = true →
      instantiatedDocKind op ≠ some DocKind.dirDoc) := by
  refine ⟨rfl, rfl, rfl, rfl, rfl, rfl, rfl, fun k hk => ?_,
    ⟨rfl, rfl, rfl, rfl⟩, fun op h => ?_⟩
  · cases k with
    | folderK => exact absurd rfl hk
    | textK => exact ⟨rfl, rfl, rfl, rfl⟩
    | tableK => exact ⟨rfl, rfl, rfl, rfl⟩
    | hexK => exact ⟨rfl, rfl, rfl, rfl⟩
    | imgK => exact ⟨rfl, rfl, rfl, rfl⟩
    | webK => exact ⟨rfl, rfl, rfl, rfl⟩
  · cases op <;> simp_all [isShowDocOp, instantiatedDocKind]

/-- Claim C3 witness: the text kind is not the folder kind and its delegate
`ShowTextMergeDoc` is a Show*Doc operation typed with `OpenTextFileParams`,
instantiating a merge document. -/
theorem showDoc_param_typing_and_dispatch_witness :
    (CompareKind.textK ≠ CompareKind.folderK ∧
     isShowDocOp (sessionDelegate .textK) = true ∧
     openParamsArg (sessionDelegate .textK) = some (claimParamsKind .textK) ∧
     instantiatedDocKind (sessionDelegate .textK) =
       some (claimDocKind .textK) ∧
     isOpenShowOp (sessionDelegate .textK) = true) ∧
    (isShowDocOp .showHexMergeDoc = true ∧
     instantiatedDocKind .showHexMergeDoc ≠ some DocKind.dirDoc) :=
  ⟨⟨by decide, showDoc_param_typing_and_dispatch.2.2.2.2.2.2.2.1 .textK
      (by decide)⟩,
   ⟨rfl, showDoc_param_typing_and_dispatch.2.2.2.2.2.2.2.2.2
      .showHexMergeDoc rfl⟩⟩

/-- Claim C4: the open operations `DoFileOrFolderOpen` and `DoFileOpen` take
the path context as a pointer to const, and a call with a well-formed path
context of 2-3 ordered locations leaves the store of path contexts exactly
as it was before the call. -/
theorem openOps_pathContext_immutable :
    (pathContextArgConstPtr .doFileOrFolderOpen = some true ∧
     pathContextArgConstPtr .doFileOpen = some true) ∧
    (∀ (pf : Nat) (k : DocKind) (newId : Nat) (ok : Bool) (w : OpenWorld),
      (w.pathContexts pf).wellFormed →
      (doFileOrFolderOpen pf k newId ok w).2.pathContexts = w.pathContexts ∧
      (doFileOpen pf k newId ok w).2.pathContexts = w.pathContexts) :=
  ⟨⟨rfl, rfl⟩, fun _ _ _ _ _ _ => ⟨rfl, rfl⟩⟩

/-- Claim C4 witness: a concrete two-path context is well formed and a call
to the open operation leaves the path-context store unchanged. -/
theorem openOps_pathContext_immutable_witness :
    (w0.pathContexts 0).wellFormed ∧
    (doFileOrFolderOpen 0 .mergeDoc 1 true w0).2.pathContexts =
      w0.pathContexts :=
  ⟨⟨by decide, by decide⟩,
   (openOps_pathContext_immutable.2 0 .mergeDoc 1 true w0
     ⟨by decide, by decide⟩).1⟩

/-- Claim C9: the most-recently-used list is bounded: after every call to
`addToMru`, the list stored under the given registry subkey holds at most
`nMaxItems` entries, every other subkey is untouched, and `nMaxItems`
defaults to 20 when the caller does not supply it. -/
theorem addToMru_bounded :
    (∀ (szItem szRegSubKey : String) (reg : String → List String)
       (nMaxItems : Nat),
      (addToMru szItem szRegSubKey reg nMaxItems szRegSubKey).length ≤
        nMaxItems) ∧
    (∀ (szItem szRegSubKey : String) (reg : String → List String)
       (nMaxItems : Nat) (key : String), key ≠ szRegSubKey →
      addToMru szItem szRegSubKey reg nMaxItems key = reg key) ∧
    (∀ (szItem szRegSubKey : String) (reg : String → List String),
      addToMru szItem szRegSubKey reg = addToMru szItem szRegSubKey reg 20) := by
  refine ⟨fun item key reg n => ?_, fun item key reg n k hk => ?_,
    fun _ _ _ => rfl⟩
  · simp only [addToMru, if_pos rfl, mruUpdate]
    exact List.length_take_le n _
  · simp [addToMru, hk]

/-- Claim C9 witness: adding an item under one subkey leaves a different
subkey's stored list unchanged, at a concrete input. -/
theorem addToMru_bounded_witness :
    ("k2" : String) ≠ "k1" ∧
    addToMru "item" "k1" (fun _ => []) 20 "k2" = [] :=
  ⟨by decide, addToMru_bounded.2.1 "item" "k1" (fun _ => []) 20 "k2" (by decide)⟩

/-- Claim C10: in `CMDIClient::WindowProc` the redraw-disabled state is
transient: `SetRedraw(FALSE)` runs only on `WM_MDICREATE`/`WM_MDIACTIVATE`
and only if `SetTimer` for timer id 1612 succeeded (leaving the timer
pending); the `WM_TIMER` branch for that id kills the timer, calls
`SetRedraw(TRUE)` and redraws the window with all children; hence after any
transition into the redraw-disabled state, delivery of that timer's
`WM_TIMER` message returns the window to the redraw-enabled state. -/
theorem mdiClient_redraw_transient :
    (∀ (s : MDIClientState) (msg : MDIMsg) (env : MDIEnv),
      MDIAction.setRedrawAct false ∈ (CMDIClient.windowProc s msg env).2 →
      (msg = .wmMdiCreate ∨ msg = .wmMdiActivate) ∧
      env.setTimerSucceeds = true ∧
      MDIAction.setTimerAct m_nRedrawTimer ∈
        (CMDIClient.windowProc s msg env).2 ∧
      (CMDIClient.windowProc s msg env).1.timerActive = true ∧
      (CMDIClient.windowProc s msg env).1.redrawEnabled = false) ∧
    (∀ (s : MDIClientState) (env : MDIEnv),
      CMDIClient.windowProc s (.wmTimer m_nRedrawTimer) env =
        (⟨true, false⟩,
         [.killTimerAct m_nRedrawTimer, .setRedrawAct true,
          .redrawWindowAllChildren])) ∧
    (∀ (s : MDIClientState) (msg : MDIMsg) (env env2 : MDIEnv),
      (CMDIClient.windowProc s msg env).1.redrawEnabled = false →
      (CMDIClient.windowProc (CMDIClient.windowProc s msg env).1
          (.wmTimer m_nRedrawTimer) env2).1.redrawEnabled = true) := by
  refine ⟨?_, fun s env => rfl, fun s msg env env2 _ => rfl⟩
  intro s msg env h
  obtain ⟨rd, ta⟩ := s
  obtain ⟨bm, hn, st⟩ := env
  cases msg with
  | wmMdiCreate =>
    revert h
    cases rd <;> cases ta <;> cases bm <;> cases hn <;> cases st <;> decide
  | wmMdiActivate =>
    revert h
    cases rd <;> cases ta <;> cases bm <;> cases hn <;> cases st <;> decide
  | wmMdiSetMenu => simp [CMDIClient.windowProc] at h
  | wmTimer w =>
    rcases eq_or_ne w m_nRedrawTimer with hw | hw
    · subst hw
      simp [CMDIClient.windowProc, m_nRedrawTimer] at h
    · simp [CMDIClient.windowProc, hw] at h
  | otherMsg => simp [CMDIClient.windowProc] at h

/-- Claim C10 witness: a maximized `WM_MDICREATE` with a succeeding
`SetTimer` disables redraw and leaves the timer pending, and the subsequent
`WM_TIMER` for id 1612 re-enables redraw. -/
theorem mdiClient_redraw_transient_witness :
    ((MDIMsg.wmMdiCreate = .wmMdiCreate ∨ MDIMsg.wmMdiCreate = .wmMdiActivate) ∧
     MDIEnv.setTimerSucceeds ⟨true, true, true⟩ = true ∧
     MDIAction.setTimerAct m_nRedrawTimer ∈
       (CMDIClient.windowProc ⟨true, false⟩ .wmMdiCreate ⟨true, true, true⟩).2 ∧
     (CMDIClient.windowProc ⟨true, false⟩ .wmMdiCreate
        ⟨true, true, true⟩).1.timerActive = true ∧
     (CMDIClient.windowProc ⟨true, false⟩ .wmMdiCreate
        ⟨true, true, true⟩).1.redrawEnabled = false) ∧
    (CMDIClient.windowProc
        (CMDIClient.windowProc ⟨true, false⟩ .wmMdiCreate
          ⟨true, true, true⟩).1
        (.wmTimer m_nRedrawTimer) ⟨false, false, false⟩).1.redrawEnabled =
      true :=
  ⟨mdiClient_redraw_transient.1 ⟨true, false⟩ .wmMdiCreate ⟨true, true, true⟩
     (by decide),
   mdiClient_redraw_transient.2.2 ⟨true, false⟩ .wmMdiCreate ⟨true, true, true⟩
     ⟨false, false, false⟩ (by decide)⟩

/-- Claim C1: in the lifecycle model of the open/show pipeline, a successful
open of a fresh document registers it in exactly one per-kind tracking list
(the one of its document/view kind); the at-most-one-list invariant is
preserved by every well-formed lifecycle event; and a registered document
stays in its list under every event other than closing that session. -/
theorem session_tracking_exactly_one :
    (∀ (s : FrameState) (k : DocKind) (id : Nat),
      (∀ k2, ¬ s.tracked k2 id) →
      ∀ k2, (sessionStep s (.openSession k id true)).tracked k2 id ↔ k2 = k) ∧
    (∀ (s : FrameState) (e : SessionEvent),
      uniqueTracking s → eventOk s e → uniqueTracking (sessionStep s e)) ∧
    (∀ (s : FrameState) (k : DocKind) (id : Nat) (e : SessionEvent),
      s.tracked k id → eventOk s e → e ≠ .closeSession id →
      (sessionStep s e).tracked k id) := by
  refine ⟨?_, ?_, ?_⟩
  · intro s k id hfresh k2
    show (s.register k id).tracked k2 id ↔ k2 = k
    rw [tracked_register]
    constructor
    · rintro (⟨hk, _⟩ | hmem)
      · exact hk
      · exact absurd hmem (hfresh k2)
    · intro h
      exact Or.inl ⟨h, rfl⟩
  · intro s e hu ho
    cases e with
    | openSession k id ok =>
      cases ok with
      | false => simpa [sessionStep] using hu
      | true =>
        intro id2 k1 k2 h1 h2
        rw [show sessionStep s (.openSession k id true) = s.register k id from
          rfl, tracked_register] at h1 h2
        rcases h1 with ⟨hk1, hid1⟩ | hm1
        · rcases h2 with ⟨hk2, _⟩ | hm2
          · rw [hk1, hk2]
          · exact absurd hm2 (by rw [hid1]; exact ho k2)
        · rcases h2 with ⟨_, hid2⟩ | hm2
          · exact absurd hm1 (by rw [hid2]; exact ho k1)
          · exact hu id2 k1 k2 hm1 hm2
    | closeSession id =>
      intro id2 k1 k2 h1 h2
      rw [sessionStep, tracked_unregister] at h1 h2
      exact hu id2 k1 k2 h1.1 h2.1
    | uiEvent => simpa [sessionStep] using hu
  · intro s k id e hmem ho hne
    cases e with
    | openSession k2 id2 ok =>
      cases ok with
      | false => simpa [sessionStep] using hmem
      | true =>
        show (s.register k2 id2).tracked k id
        rw [tracked_register]
        exact Or.inr hmem
    | closeSession id2 =>
      rw [sessionStep, tracked_unregister]
      refine ⟨hmem, fun hEq => hne ?_⟩
      rw [hEq]
    | uiEvent => simpa [sessionStep] using hmem

/-- Claim C1 witness: opening a fresh merge document in the empty state
registers it in the merge-document list. -/
theorem session_tracking_exactly_one_witness :
    (sessionStep emptyFrameState
      (.openSession .mergeDoc 5 true)).tracked .mergeDoc 5 :=
  (session_tracking_exactly_one.1 emptyFrameState .mergeDoc 5
    (fun k2 => by simp [emptyFrameState, FrameState.tracked]) .mergeDoc).mpr rfl

end WinMerge
